import Mathlib

/-!
Verification development for the SoulLink_Live2D orchestration hub.

The definitions below are a shallow embedding of the Python sources:
  * `src/src/generators/expression.py`   (remote expression generator)
  * `src/src/generators/local_expression.py` (local expression generator)
  * `src/src/generators/chat.py`         (chat generator)
  * `src/src/server/app.py`              (server construction, broadcast)
  * `src/src/server/handlers.py`         (WebSocket message dispatcher)

Python dicts are modelled as association lists with unique keys kept in
insertion order (`dinsert` is dict assignment, `dget?` is lookup); JSON
values decoded by `json.loads` are modelled by `JValue` with numbers as
rationals.
-/

set_option autoImplicit false

namespace SoulLink

/-- A JSON value as produced by Python's `json.loads` (numbers as ℚ). -/
inductive JValue where
  | null : JValue
  | bool (b : Bool) : JValue
  | num (q : ℚ) : JValue
  | str (s : String) : JValue
  | arr (xs : List JValue) : JValue
  | obj (fields : List (String × JValue)) : JValue

/-- Python dict lookup `d.get(k)`: first entry with the given key. -/
def dget? {α : Type} (k : String) : List (String × α) → Option α
  | [] => none
  | (k', v) :: rest => if k' = k then some v else dget? k rest

/-- Python dict lookup with default, `d.get(k, dflt)`. -/
def dgetD {α : Type} (k : String) (dflt : α) (d : List (String × α)) : α :=
  (dget? k d).getD dflt

/-- Python dict assignment `d[k] = v`: replaces the value in place if the
key exists, otherwise appends the new entry. -/
def dinsert {α : Type} (k : String) (v : α) : List (String × α) → List (String × α)
  | [] => [(k, v)]
  | (k', v') :: rest => if k' = k then (k, v) :: rest else (k', v') :: dinsert k v rest

/-- Descriptor of one animation parameter as announced by a client:
the Python code reads `info.get("min", -30)`, `info.get("max", 30)`,
`info.get("name", pid)`, so each field may be absent. -/
structure ParamInfo where
  min? : Option ℚ
  max? : Option ℚ
  name? : Option String
deriving Repr, DecidableEq

/-- The parameter schema (`available_parameters` of a generator). -/
abbrev Schema : Type := List (String × ParamInfo)

/-- Effective lower bound: `info.get("min", -30)`. -/
def ParamInfo.effMin (info : ParamInfo) : ℚ := info.min?.getD (-30)

/-- Effective upper bound: `info.get("max", 30)`. -/
def ParamInfo.effMax (info : ParamInfo) : ℚ := info.max?.getD 30

/-- The clamp of `expression.py` line 115–118:
`max(info.get("min", -30), min(info.get("max", 30), value))`. -/
def clampValue (info : ParamInfo) (v : ℚ) : ℚ :=
  max info.effMin (min info.effMax v)

/-- Validation loop of `ExpressionGenerator.generate`
(`expression.py` lines 111–120): keep only keys present in
`available_parameters`, clamping each value. The candidate map is a
Python dict, i.e. an association list without duplicate keys. -/
def validateParamsRemote (schema : Schema) (cand : List (String × ℚ)) :
    List (String × ℚ) :=
  cand.filterMap fun kv =>
    (dget? kv.1 schema).map fun info => (kv.1, clampValue info kv.2)

/-- Rounding to 3 decimal places, modelling `round(num_value, 3)` of
`local_expression.py` line 217 (Python rounds to nearest; our model uses
round-half-up on exact rationals, which agrees off ties). -/
def round3 (q : ℚ) : ℚ := (round (q * 1000) : ℤ) / 1000

/-- Validation loop of `LocalExpressionGenerator.generate`
(`local_expression.py` lines 210–219): keep only keys present in
`available_parameters`, clamp, then round to 3 decimals. Candidate
values are numbers (`float(value)` succeeds on them). -/
def validateParamsLocal (schema : Schema) (cand : List (String × ℚ)) :
    List (String × ℚ) :=
  cand.filterMap fun kv =>
    (dget? kv.1 schema).map fun info => (kv.1, round3 (clampValue info kv.2))

/-- A rational is a whole number of thousandths. -/
def millesimal (q : ℚ) : Prop := ∃ z : ℤ, q = (z : ℚ) / 1000

section ClampLemmas

theorem clampValue_mem (info : ParamInfo) (v : ℚ) (h : info.effMin ≤ info.effMax) :
    info.effMin ≤ clampValue info v ∧ clampValue info v ≤ info.effMax := by
  unfold clampValue
  constructor
  · exact le_max_left _ _
  · exact max_le h (min_le_left _ _)

theorem round3_le_of_millesimal {b q : ℚ} (hb : millesimal b) (h : q ≤ b) :
    round3 q ≤ b := by
  obtain ⟨z, rfl⟩ := hb
  have hq : q * 1000 ≤ (z : ℚ) := by
    calc q * 1000 ≤ (z : ℚ) / 1000 * 1000 := by
          exact mul_le_mul_of_nonneg_right h (by norm_num)
      _ = (z : ℚ) := by ring
  have hr : round (q * 1000) ≤ z := by
    rw [round_eq, Int.floor_le_iff]
    linarith
  show (round (q * 1000) : ℚ) / 1000 ≤ (z : ℚ) / 1000
  gcongr

theorem le_round3_of_millesimal {a q : ℚ} (ha : millesimal a) (h : a ≤ q) :
    a ≤ round3 q := by
  obtain ⟨z, rfl⟩ := ha
  have hq : (z : ℚ) ≤ q * 1000 := by
    calc (z : ℚ) = (z : ℚ) / 1000 * 1000 := by ring
      _ ≤ q * 1000 := by exact mul_le_mul_of_nonneg_right h (by norm_num)
  have hr : z ≤ round (q * 1000) := by
    rw [round_eq, Int.le_floor]
    linarith
  show (z : ℚ) / 1000 ≤ (round (q * 1000) : ℚ) / 1000
  gcongr

end ClampLemmas

section DictLemmas

theorem dget?_mem {α : Type} {k : String} {v : α} {d : List (String × α)}
    (h : dget? k d = some v) : (k, v) ∈ d := by
  induction d with
  | nil => simp [dget?] at h
  | cons p rest ih =>
    obtain ⟨k', v'⟩ := p
    rw [dget?] at h
    by_cases hk : k' = k
    · simp only [hk, if_pos rfl] at h
      obtain rfl := Option.some.inj h
      rw [← hk]
      exact List.mem_cons_self _ _
    · simp only [if_neg hk] at h
      exact List.mem_cons_of_mem _ (ih h)

theorem dget?_eq_none_iff {α : Type} {k : String} {d : List (String × α)} :
    dget? k d = none ↔ ∀ p ∈ d, p.1 ≠ k := by
  induction d with
  | nil => simp [dget?]
  | cons p rest ih =>
    rw [dget?]
    by_cases hk : p.1 = k <;> simp [hk, ih]

end DictLemmas

section ValidationTheorems

/-- `C1` (amended): over any schema whose descriptors satisfy `min ≤ max`
and whose bounds are whole multiples of `0.001`, both expression
generators' validation loops return only keys present in the schema with
values clamped into `[min, max]`, and keys absent from the schema are
silently dropped. -/
theorem clamp_filter_validation (S : Schema) (P : List (String × ℚ))
    (hwf : ∀ p ∈ S, p.2.effMin ≤ p.2.effMax)
    (hgrid : ∀ p ∈ S, millesimal p.2.effMin ∧ millesimal p.2.effMax) :
    (∀ kv ∈ validateParamsRemote S P,
      ∃ info, dget? kv.1 S = some info ∧ info.effMin ≤ kv.2 ∧ kv.2 ≤ info.effMax) ∧
    (∀ kv ∈ validateParamsLocal S P,
      ∃ info, dget? kv.1 S = some info ∧ info.effMin ≤ kv.2 ∧ kv.2 ≤ info.effMax) ∧
    (∀ k : String, dget? k S = none →
      dget? k (validateParamsRemote S P) = none ∧
      dget? k (validateParamsLocal S P) = none) := by
  refine ⟨?_, ?_, ?_⟩
  · intro kv hkv
    rw [validateParamsRemote, List.mem_filterMap] at hkv
    obtain ⟨p, _, hp⟩ := hkv
    rcases hinfo : dget? p.1 S with _ | info
    · rw [hinfo] at hp; simp at hp
    · rw [hinfo] at hp
      simp only [Option.map_some'] at hp
      obtain rfl := Option.some.inj hp
      have hmem := dget?_mem hinfo
      exact ⟨info, hinfo, clampValue_mem info p.2 (hwf _ hmem)⟩
  · intro kv hkv
    rw [validateParamsLocal, List.mem_filterMap] at hkv
    obtain ⟨p, _, hp⟩ := hkv
    rcases hinfo : dget? p.1 S with _ | info
    · rw [hinfo] at hp; simp at hp
    · rw [hinfo] at hp
      simp only [Option.map_some'] at hp
      obtain rfl := Option.some.inj hp
      have hmem := dget?_mem hinfo
      have hclamp := clampValue_mem info p.2 (hwf _ hmem)
      exact ⟨info, hinfo,
        le_round3_of_millesimal (hgrid _ hmem).1 hclamp.1,
        round3_le_of_millesimal (hgrid _ hmem).2 hclamp.2⟩
  · intro k hk
    constructor
    · rw [dget?_eq_none_iff]
      intro p hp
      rw [validateParamsRemote, List.mem_filterMap] at hp
      obtain ⟨q, _, hq⟩ := hp
      rcases hinfo : dget? q.1 S with _ | info
      · rw [hinfo] at hq; simp at hq
      · rw [hinfo] at hq
        simp only [Option.map_some'] at hq
        obtain rfl := Option.some.inj hq
        intro hkk
        rw [hkk] at hinfo
        rw [hk] at hinfo
        exact Option.noConfusion hinfo
    · rw [dget?_eq_none_iff]
      intro p hp
      rw [validateParamsLocal, List.mem_filterMap] at hp
      obtain ⟨q, _, hq⟩ := hp
      rcases hinfo : dget? q.1 S with _ | info
      · rw [hinfo] at hq; simp at hq
      · rw [hinfo] at hq
        simp only [Option.map_some'] at hq
        obtain rfl := Option.some.inj hq
        intro hkk
        rw [hkk] at hinfo
        rw [hk] at hinfo
        exact Option.noConfusion hinfo

/-- `C1` counterexample: a schema descriptor with `min = 1 > max = 0` makes
the remote validation loop return the value `1` for key `"p"`, which does
not lie in the interval `[min, max] = [1, 0]` (that interval is empty). -/
theorem clamp_filter_counterexample :
    validateParamsRemote [("p", ⟨some 1, some 0, none⟩)] [("p", (1 : ℚ) / 2)]
      = [("p", 1)] ∧
    ¬ ((1 : ℚ) ≤ ParamInfo.effMax ⟨some 1, some 0, none⟩) := by
  constructor
  · simp [validateParamsRemote, dget?, clampValue, ParamInfo.effMin, ParamInfo.effMax]
  · simp [ParamInfo.effMax]

/-- The schema of the spec's worked example (§8). -/
def exSchemaC1 : Schema := [("ParamEyeLOpen", ⟨some 0, some 1, none⟩)]

/-- The candidate map of the spec's worked example (§8). -/
def exParamsC1 : List (String × ℚ) := [("ParamEyeLOpen", 3 / 2), ("Unknown", 3 / 10)]

theorem clamp_filter_validation_witness :
    ((∀ p ∈ exSchemaC1, p.2.effMin ≤ p.2.effMax) ∧
      (∀ p ∈ exSchemaC1, millesimal p.2.effMin ∧ millesimal p.2.effMax)) ∧
    ((∀ kv ∈ validateParamsRemote exSchemaC1 exParamsC1,
      ∃ info, dget? kv.1 exSchemaC1 = some info ∧
        info.effMin ≤ kv.2 ∧ kv.2 ≤ info.effMax) ∧
    (∀ kv ∈ validateParamsLocal exSchemaC1 exParamsC1,
      ∃ info, dget? kv.1 exSchemaC1 = some info ∧
        info.effMin ≤ kv.2 ∧ kv.2 ≤ info.effMax) ∧
    (∀ k : String, dget? k exSchemaC1 = none →
      dget? k (validateParamsRemote exSchemaC1 exParamsC1) = none ∧
      dget? k (validateParamsLocal exSchemaC1 exParamsC1) = none)) := by
  have hwf : ∀ p ∈ exSchemaC1, p.2.effMin ≤ p.2.effMax := by
    intro p hp
    rw [exSchemaC1, List.mem_singleton] at hp
    rw [hp]
    simp [ParamInfo.effMin, ParamInfo.effMax]
  have hgrid : ∀ p ∈ exSchemaC1, millesimal p.2.effMin ∧ millesimal p.2.effMax := by
    intro p hp
    rw [exSchemaC1, List.mem_singleton] at hp
    rw [hp]
    exact ⟨⟨0, by norm_num [ParamInfo.effMin]⟩, ⟨1000, by norm_num [ParamInfo.effMax]⟩⟩
  exact ⟨⟨hwf, hgrid⟩, clamp_filter_validation exSchemaC1 exParamsC1 hwf hgrid⟩

end ValidationTheorems

section Broadcast

/-- The send loop of `SoulLinkServer.broadcast` (`app.py` lines 57–62):
try `ws.send_json(message)` on each registered channel; channels whose
send raises are collected in `dead_clients`, the others receive the
message. Channels are identified by numeric ids; `fails c = true` models
a channel whose send raises. Returns `(delivered, dead)`. -/
def broadcastLoop (fails : Nat → Bool) : List Nat → List Nat × List Nat
  | [] => ([], [])
  | c :: rest =>
    let r := broadcastLoop fails rest
    if fails c then (r.1, c :: r.2) else (c :: r.1, r.2)

/-- `SoulLinkServer.broadcast` (`app.py` lines 52–64): early return on an
empty client set, otherwise one send attempt per channel followed by
`self.clients -= dead_clients`. Returns the channels that received the
message and the new live set. -/
def broadcast (fails : Nat → Bool) (clients : List Nat) : List Nat × List Nat :=
  if clients.isEmpty then ([], clients)
  else
    let r := broadcastLoop fails clients
    (r.1, clients.filter (fun c => decide (c ∉ r.2)))

theorem broadcastLoop_delivered (fails : Nat → Bool) (l : List Nat) :
    (broadcastLoop fails l).1 = l.filter (fun c => !fails c) := by
  induction l with
  | nil => rfl
  | cons c rest ih =>
    rw [broadcastLoop]
    rcases hc : fails c <;> simp [hc, ih, List.filter_cons]

theorem broadcastLoop_dead (fails : Nat → Bool) (l : List Nat) :
    (broadcastLoop fails l).2 = l.filter fails := by
  induction l with
  | nil => rfl
  | cons c rest ih =>
    rw [broadcastLoop]
    rcases hc : fails c <;> simp [hc, ih, List.filter_cons]

/-- `C3`: when exactly one registered channel `k` fails its send,
`broadcast` still delivers the message to every other registered channel
(exactly one send attempt each), and afterwards `k` is no longer in the
live client set while the other channels remain registered. -/
theorem broadcast_isolates_failure (clients : List Nat) (fails : Nat → Bool) (k : Nat)
    (hnd : clients.Nodup) (hk : k ∈ clients) (hfk : fails k = true)
    (honly : ∀ j ∈ clients, j ≠ k → fails j = false) :
    (∀ j ∈ clients, j ≠ k → j ∈ (broadcast fails clients).1) ∧
    (∀ j ∈ clients, j ≠ k → (broadcast fails clients).1.count j = 1) ∧
    k ∉ (broadcast fails clients).2 ∧
    (∀ j ∈ clients, j ≠ k → j ∈ (broadcast fails clients).2) := by
  have hne : clients.isEmpty = false := by
    cases clients with
    | nil => cases hk
    | cons a l => rfl
  rw [broadcast, hne]
  simp only [Bool.false_eq_true, if_false, broadcastLoop_delivered, broadcastLoop_dead]
  refine ⟨?_, ?_, ?_, ?_⟩
  · intro j hj hjk
    rw [List.mem_filter]
    exact ⟨hj, by rw [honly j hj hjk]; rfl⟩
  · intro j hj hjk
    have hj' : j ∈ clients.filter (fun c => !fails c) := by
      rw [List.mem_filter]
      exact ⟨hj, by rw [honly j hj hjk]; rfl⟩
    exact List.count_eq_one_of_mem (hnd.filter _) hj'
  · intro hmem
    rw [List.mem_filter, decide_eq_true_iff] at hmem
    exact hmem.2 (List.mem_filter.2 ⟨hk, hfk⟩)
  · intro j hj hjk
    rw [List.mem_filter, decide_eq_true_iff]
    refine ⟨hj, ?_⟩
    rw [List.mem_filter]
    rintro ⟨-, hf⟩
    rw [honly j hj hjk] at hf
    cases hf

theorem broadcast_isolates_failure_witness :
    ((5 : Nat) ∈ [3, 5, 9] ∧ (fun n => n == 5) 5 = true) ∧
    ((∀ j ∈ [3, 5, 9], j ≠ 5 → j ∈ (broadcast (fun n => n == 5) [3, 5, 9]).1) ∧
     (∀ j ∈ [3, 5, 9], j ≠ 5 → (broadcast (fun n => n == 5) [3, 5, 9]).1.count j = 1) ∧
     5 ∉ (broadcast (fun n => n == 5) [3, 5, 9]).2 ∧
     (∀ j ∈ [3, 5, 9], j ≠ 5 → j ∈ (broadcast (fun n => n == 5) [3, 5, 9]).2)) :=
  ⟨⟨by decide, by decide⟩,
    broadcast_isolates_failure [3, 5, 9] (fun n => n == 5) 5
      (by decide) (by decide) (by decide) (by decide)⟩

end Broadcast

section ChatStrategy

/-- One entry of the `history` list passed to `ChatGenerator.generate`:
the code reads `h.get("role", "user")` and `h.get("content", "")`, so
both keys may be absent. -/
structure HistoryEntry where
  role? : Option String
  content? : Option String
deriving Repr, DecidableEq

/-- One entry of the OpenAI-style `messages` array submitted to the
backend. -/
structure ChatMessage where
  role : String
  content : String
deriving Repr, DecidableEq

/-- The fixed persona system instruction set in `ChatGenerator.__init__`
(`chat.py` lines 19–24). -/
def chatSystemPrompt : String :=
  "你是一个可爱、活泼的虚拟助手。请用简洁、友好的方式回复用户。\n回复要求：\n1. 语言自然、有个性\n2. 适当使用语气词和表情\n3. 回复不要太长，控制在50字以内\n4. 根据对话情绪给出相应的回复风格"

/-- Python's `xs[-n:]`: the suffix of the most recent `n` entries. -/
def takeLast {α : Type} (n : Nat) (xs : List α) : List α :=
  xs.drop (xs.length - n)

/-- The message-list construction of `ChatGenerator.generate` (`chat.py`
lines 31–43): the persona instruction, then `history[-6:]` converted to
role/content pairs, then the current user message appended only when
`not history or history[-1].get("content") != message`. A `None` history
behaves like an empty one. -/
def chatMessages (history : Option (List HistoryEntry)) (message : String) :
    List ChatMessage :=
  let h := history.getD []
  let messages := [ChatMessage.mk "system" chatSystemPrompt]
  let messages := messages ++
    (takeLast 6 h).map (fun e => ⟨e.role?.getD "user", e.content?.getD ""⟩)
  if h = [] ∨ (h.getLast?.bind HistoryEntry.content?) ≠ some message then
    messages ++ [⟨"user", message⟩]
  else
    messages

/-- `C6`: the submitted message list is the persona instruction followed
by exactly the most recent (at most) 6 history entries — a suffix of the
supplied history — and the current user message is appended as a final
user turn precisely when the history is absent/empty or its last entry's
content differs from the current message. -/
theorem chat_truncates_history_and_appends (history : Option (List HistoryEntry))
    (message : String) :
    chatMessages history message =
      ChatMessage.mk "system" chatSystemPrompt ::
        ((takeLast 6 (history.getD [])).map
            (fun e => ⟨e.role?.getD "user", e.content?.getD ""⟩) ++
          (if history.getD [] = [] ∨
              ((history.getD []).getLast?.bind HistoryEntry.content?) ≠ some message
            then [ChatMessage.mk "user" message] else [])) ∧
    (takeLast 6 (history.getD [])).length ≤ 6 ∧
    takeLast 6 (history.getD []) <:+ history.getD [] := by
  refine ⟨?_, ?_, ?_⟩
  · rw [chatMessages]
    by_cases hc : history.getD [] = [] ∨
        ((history.getD []).getLast?.bind HistoryEntry.content?) ≠ some message
    · rw [if_pos hc, if_pos hc]
      simp
    · rw [if_neg hc, if_neg hc]
      simp
  · rw [takeLast, List.length_drop]
    omega
  · exact List.drop_suffix _ _

end ChatStrategy

section BackendCalls

/-- The `LLMConfig` dataclass of `src/src/config/models.py`, with the
numeric fields as rationals. -/
structure LLMConfig where
  mode : String := "api"
  provider : String := "openai"
  api_key : String := ""
  base_url : String := "https://api.openai.com/v1"
  model : String := "gpt-4o-mini"
  temperature : ℚ := 7 / 10
  max_tokens : Nat := 500
  local_base_model_path : String := ""
  local_lora_model_path : String := ""
  local_device : String := "auto"
  local_temperature : ℚ := 1 / 10
  local_max_new_tokens : Nat := 512

/-- The JSON request body both generators pass as `json=` to
`session.post`. -/
structure RequestBody where
  model : String
  messages : List ChatMessage
  temperature : ℚ
  max_tokens : Nat

/-- The arguments of one `aiohttp` `session.post(...)` call as issued by
the generators: URL, bearer token, JSON body, and the optional `timeout`
argument in seconds — `none` when the call passes no timeout of its own
and is bounded only by the library's implicit default. -/
structure PostCall where
  url : String
  bearer : String
  body : RequestBody
  timeout? : Option ℚ

/-- The HTTP call of `ChatGenerator.generate` (`chat.py` lines 55–64). -/
def chatPostCall (cfg : LLMConfig) (message : String)
    (history : Option (List HistoryEntry)) : PostCall :=
  { url := cfg.base_url ++ "/chat/completions"
    bearer := cfg.api_key
    body := { model := cfg.model, messages := chatMessages history message,
              temperature := cfg.temperature, max_tokens := cfg.max_tokens }
    timeout? := none }

/-- The HTTP call of `ExpressionGenerator.generate` (`expression.py`
lines 69–92): a two-message body carrying the schema-derived system
prompt and the user text. -/
def expressionPostCall (cfg : LLMConfig) (systemPrompt userMessage : String) :
    PostCall :=
  { url := cfg.base_url ++ "/chat/completions"
    bearer := cfg.api_key
    body := { model := cfg.model
              messages := [⟨"system", systemPrompt⟩, ⟨"user", userMessage⟩]
              temperature := cfg.temperature, max_tokens := cfg.max_tokens }
    timeout? := none }

/-- `C8` (evidence for the code bug): neither generator's `session.post`
call passes any timeout argument, so no caller-visible ~30 s bound exists
in the code; the calls are limited only by `aiohttp`'s implicit default
(300 s total), contrary to the spec's timeout requirement. -/
theorem backend_calls_pass_no_timeout (cfg : LLMConfig) (m sp um : String)
    (h : Option (List HistoryEntry)) :
    (chatPostCall cfg m h).timeout? = none ∧
    (expressionPostCall cfg sp um).timeout? = none :=
  ⟨rfl, rfl⟩

end BackendCalls

section Dispatcher

/-- The expression-generation strategy selected at server construction. -/
inductive ExprStrategy where
  | localGen : ExprStrategy
  | remoteGen : ExprStrategy
deriving Repr, DecidableEq

/-- Environment of `LocalExpressionGenerator.is_available`
(`local_expression.py` lines 227–233): whether the torch/transformers/peft
imports succeeded (`LOCAL_MODEL_AVAILABLE`) and whether the two model
artifact paths exist. -/
structure LocalEnv where
  depsInstalled : Bool
  basePathExists : Bool
  loraPathExists : Bool
deriving Repr, DecidableEq

/-- `LocalExpressionGenerator.is_available`. -/
def isAvailable (env : LocalEnv) : Bool :=
  env.depsInstalled && env.basePathExists && env.loraPathExists

/-- The strategy choice of `SoulLinkServer.__init__` (`app.py` lines
27–37): `local` mode uses the local generator only when it reports
availability and otherwise falls back to the remote generator; any other
mode uses the remote generator. -/
def selectStrategy (mode : String) (localAvailable : Bool) : ExprStrategy :=
  if mode = "local" then
    (if localAvailable then .localGen else .remoteGen)
  else .remoteGen

/-- The payload of the `chat_response` reply built by
`_handle_chat_with_reply`. -/
structure ChatResponseData where
  reply : String
  expression : JValue
  parameters : JValue
  duration : JValue
  autoReset : JValue

/-- Outbound messages of `handlers.py`, abstracted to the fields the
handlers compute. -/
inductive OutMsg where
  | pong : OutMsg
  | errorOut (message : String) : OutMsg
  | parametersUpdated (count : Nat) : OutMsg
  | loadModelOut (model : String) : OutMsg
  | expressionOut (expression parameters duration autoReset : JValue) : OutMsg
  | expressionRaw (parameters duration autoReset : JValue) : OutMsg
  | resetOut (duration : JValue) : OutMsg
  | chatResponseOut (data : ChatResponseData) : OutMsg

/-- An effect of handling one inbound message: a reply to the sender or a
broadcast to all clients. -/
inductive Action where
  | reply (m : OutMsg) : Action
  | broadcastAll (m : OutMsg) : Action

/-- The server state touched by the message handlers: live client set,
the strategy chosen at construction, the expression generator's parameter
schema (stored raw, exactly as sent by the client), and the current model
name. -/
structure ServerState where
  clients : List Nat
  strategy : ExprStrategy
  rawSchema : JValue
  currentModel : Option String

/-- Per-request environment: the outcomes of the backend strategy calls
the handlers `await` (the embedding passes each outcome in, indexed by
the strategy used for expression generation), plus the scanner's model
catalog. -/
structure DispatchEnv where
  runExpr : ExprStrategy → Except String (List (String × JValue))
  chatResult : Except String String
  knownModels : List String

/-- Python `len(...)` on a decoded JSON value; `none` models the
`TypeError` raised on unsized values. -/
def pyLen : JValue → Option Nat
  | .str s => some s.length
  | .arr xs => some xs.length
  | .obj fs => some fs.length
  | _ => none

/-- Python type name of a decoded JSON value (numbers approximated as
`float`; used only inside modelled error-message text). -/
def pyTypeName : JValue → String
  | .null => "NoneType"
  | .bool _ => "bool"
  | .num _ => "float"
  | .str _ => "str"
  | .arr _ => "list"
  | .obj _ => "dict"

/-- A rendering of a decoded JSON value in the style of Python
`str(...)` (container/number rendering approximated; used only inside
modelled error-message text). -/
def pyStr : JValue → String
  | .null => "None"
  | .bool true => "True"
  | .bool false => "False"
  | .num q => toString q
  | .str s => s
  | .arr _ => "[...]"
  | .obj _ => "\x7b...\x7d"

/-- The text of the `AttributeError` raised by `msg.get("type")` when the
decoded payload is not a dict. -/
def pyAttrError (v : JValue) : String :=
  "\x27" ++ pyTypeName v ++ "\x27 object has no attribute \x27get\x27"

/-- Python `msg.get("type") == s` for a string literal `s`: true exactly
when the field is present, is a string, and equals `s`. -/
def isType (mt : Option JValue) (s : String) : Bool :=
  match mt with
  | some (.str t) => t == s
  | _ => false

/-- The seven message types recognized by `_handle_message`. -/
def recognizedTypes : List String :=
  ["load_model", "update_parameters", "chat", "chat_with_reply",
   "expression", "reset", "ping"]

/-- The merging step of `_handle_chat_with_reply` (`handlers.py` lines
164–177): each branch's outcome is substituted independently — a failed
chat branch by the annotated placeholder string, a failed expression
branch by an empty dict whose `get` defaults then fill the response
fields. -/
def mergeChatWithReply (chatRes : Except String String)
    (exprRes : Except String (List (String × JValue))) (autoReset : JValue) :
    ChatResponseData :=
  let chatReply := match chatRes with
    | .ok r => r
    | .error e => "聊天生成失败: " ++ e
  let er := match exprRes with
    | .ok d => d
    | .error _ => []
  { reply := chatReply
    expression := dgetD "expression" (.str "") er
    parameters := dgetD "parameters" (.obj []) er
    duration := dgetD "duration" (.num 800) er
    autoReset := autoReset }

/-- `WebSocketHandler._handle_message` (`handlers.py` lines 56–87) on a
successfully decoded JSON payload, inlining the per-type handlers it
calls (`_handle_load_model`, `_handle_update_parameters`, `_handle_chat`,
`_handle_chat_with_reply`, `_handle_expression`, `_handle_reset`).
Effects are returned as an action list; backend-call outcomes come from
`env`. A non-dict payload raises `AttributeError` at `msg.get("type")`,
which the handler's catch-all turns into an error reply. -/
def dispatch (st : ServerState) (env : DispatchEnv) (v : JValue) :
    ServerState × List Action :=
  match v with
  | .obj fields =>
    let mt := dget? "type" fields
    if isType mt "load_model" then
      match dget? "model" fields with
      | some (.str name) =>
        if name ∈ env.knownModels then
          ({ st with currentModel := some name },
            [.broadcastAll (.loadModelOut name)])
        else
          (st, [.reply (.errorOut ("模型不存在: " ++ name))])
      | some other => (st, [.reply (.errorOut ("模型不存在: " ++ pyStr other))])
      | none => (st, [.reply (.errorOut ("模型不存在: " ++ pyStr .null))])
    else if isType mt "update_parameters" then
      let parameters := dgetD "parameters" (.obj []) fields
      let st' := { st with rawSchema := parameters }
      match pyLen parameters with
      | some n => (st', [.reply (.parametersUpdated n)])
      | none =>
        (st', [.reply (.errorOut ("object of type " ++ pyTypeName parameters
          ++ " has no len()"))])
    else if isType mt "chat" then
      let autoReset := dgetD "autoReset" (.bool true) fields
      match env.runExpr st.strategy with
      | .ok result =>
        (st, [.broadcastAll (.expressionOut
          (dgetD "expression" (.str "") result)
          (dgetD "parameters" (.obj []) result)
          (dgetD "duration" (.num 800) result) autoReset)])
      | .error e => (st, [.reply (.errorOut e)])
    else if isType mt "chat_with_reply" then
      let autoReset := dgetD "autoReset" (.bool true) fields
      (st, [.reply (.chatResponseOut
        (mergeChatWithReply env.chatResult (env.runExpr st.strategy) autoReset))])
    else if isType mt "expression" then
      (st, [.broadcastAll (.expressionRaw
        (dgetD "parameters" (.obj []) fields)
        (dgetD "duration" (.num 800) fields)
        (dgetD "autoReset" (.bool false) fields))])
    else if isType mt "reset" then
      (st, [.broadcastAll (.resetOut (dgetD "duration" (.num 800) fields))])
    else if isType mt "ping" then
      (st, [.reply .pong])
    else
      (st, [])
  | other => (st, [.reply (.errorOut (pyAttrError other))])

/-- Server construction (`app.py` lines 22–41): the strategy is chosen
once from the configured mode and the local generator's availability
check; the client set starts empty, no model is current, and the
expression generator starts with an empty parameter schema. -/
def initServer (mode : String) (localEnv : LocalEnv) : ServerState :=
  { clients := []
    strategy := selectStrategy mode (isAvailable localEnv)
    rawSchema := .obj []
    currentModel := none }

/-- Fold a sequence of inbound messages through the dispatcher. -/
def runMessages (st : ServerState) : List (DispatchEnv × JValue) → ServerState
  | [] => st
  | (env, v) :: rest => runMessages (dispatch st env v).1 rest

theorem dispatch_preserves_strategy (st : ServerState) (env : DispatchEnv)
    (v : JValue) : (dispatch st env v).1.strategy = st.strategy := by
  cases v <;> try rfl
  case obj fields =>
    simp only [dispatch]
    repeat' first
      | rfl
      | split

end Dispatcher

section DispatcherTheorems

theorem runMessages_preserves_strategy (msgs : List (DispatchEnv × JValue)) :
    ∀ st : ServerState, (runMessages st msgs).strategy = st.strategy := by
  induction msgs with
  | nil => intro st; rfl
  | cons m rest ih =>
    intro st
    obtain ⟨env, v⟩ := m
    rw [runMessages, ih, dispatch_preserves_strategy]

/-- `C5`: the expression-strategy choice is made exactly once at server
construction — configured local mode with a failed availability check
selects Remote, local mode with availability selects Local — and no
sequence of inbound messages ever changes the selected strategy, so the
selection holds for the whole process lifetime. -/
theorem strategy_selected_once (mode : String) (localEnv : LocalEnv)
    (msgs : List (DispatchEnv × JValue)) :
    (mode = "local" → isAvailable localEnv = false →
      (initServer mode localEnv).strategy = .remoteGen) ∧
    (mode = "local" → isAvailable localEnv = true →
      (initServer mode localEnv).strategy = .localGen) ∧
    (runMessages (initServer mode localEnv) msgs).strategy =
      (initServer mode localEnv).strategy := by
  refine ⟨?_, ?_, ?_⟩
  · intro hm ha
    simp [initServer, selectStrategy, hm, ha]
  · intro hm ha
    simp [initServer, selectStrategy, hm, ha]
  · exact runMessages_preserves_strategy msgs _

theorem strategy_selected_once_witness :
    ("local" = "local" ∧ isAvailable ⟨false, false, false⟩ = false) ∧
    (initServer "local" ⟨false, false, false⟩).strategy = .remoteGen :=
  ⟨⟨rfl, rfl⟩,
    (strategy_selected_once "local" ⟨false, false, false⟩ []).1 rfl rfl⟩

/-- `C9` (amended): for an inbound payload that decodes to a JSON
**object** whose `type` field is absent or not one of the seven
recognized type strings, the dispatcher sends no reply, broadcasts
nothing, and leaves the entire server state (client set, strategy,
schema, current model) unchanged. -/
theorem unknown_type_ignored (st : ServerState) (env : DispatchEnv)
    (fields : List (String × JValue))
    (h : ∀ s ∈ recognizedTypes, isType (dget? "type" fields) s = false) :
    dispatch st env (.obj fields) = (st, []) := by
  have h1 := h "load_model" (by simp [recognizedTypes])
  have h2 := h "update_parameters" (by simp [recognizedTypes])
  have h3 := h "chat" (by simp [recognizedTypes])
  have h4 := h "chat_with_reply" (by simp [recognizedTypes])
  have h5 := h "expression" (by simp [recognizedTypes])
  have h6 := h "reset" (by simp [recognizedTypes])
  have h7 := h "ping" (by simp [recognizedTypes])
  simp only [dispatch, h1, h2, h3, h4, h5, h6, h7, Bool.false_eq_true, if_false]

/-- `C9` counterexample (to the claim as stated): the payload `[1]` is
valid JSON and has no `type` field, yet the dispatcher replies with an
error message (the `AttributeError` of `msg.get` on a list caught by the
handler's catch-all), rather than sending nothing. -/
theorem unknown_type_counterexample :
    (dispatch ⟨[], .remoteGen, .obj [], none⟩
        ⟨fun _ => .error "e", .error "e", []⟩ (.arr [.num 1])).2 =
      [.reply (.errorOut "\x27list\x27 object has no attribute \x27get\x27")] :=
  rfl

theorem unknown_type_ignored_witness :
    (∀ s ∈ recognizedTypes,
      isType (dget? "type" [("type", JValue.str "bogus")]) s = false) ∧
    dispatch ⟨[], .remoteGen, .obj [], none⟩
        ⟨fun _ => .error "e", .error "e", []⟩
        (.obj [("type", JValue.str "bogus")]) =
      (⟨[], .remoteGen, .obj [], none⟩, []) :=
  ⟨by decide,
    unknown_type_ignored ⟨[], .remoteGen, .obj [], none⟩
      ⟨fun _ => .error "e", .error "e", []⟩ [("type", JValue.str "bogus")]
      (by decide)⟩

/-- `C2`: in `_handle_chat_with_reply` the two branch outcomes are
substituted independently: a failed chat branch contributes the
error-annotated placeholder reply, a failed expression branch contributes
the empty-expression defaults (`expression = ""`, `parameters = {}`,
`duration = 800`), a successful branch's result is used as-is, and in
every combination the dispatcher produces exactly one `chat_response`
reply and nothing else (no exception escapes, both-failed included). -/
theorem chat_with_reply_partial_failure (st : ServerState) (env : DispatchEnv)
    (fields : List (String × JValue))
    (hty : isType (dget? "type" fields) "chat_with_reply" = true) :
    (dispatch st env (.obj fields)).2 =
      [.reply (.chatResponseOut (mergeChatWithReply env.chatResult
        (env.runExpr st.strategy) (dgetD "autoReset" (.bool true) fields)))] ∧
    (∀ e, env.chatResult = .error e →
      (mergeChatWithReply env.chatResult (env.runExpr st.strategy)
        (dgetD "autoReset" (.bool true) fields)).reply = "聊天生成失败: " ++ e) ∧
    (∀ r, env.chatResult = .ok r →
      (mergeChatWithReply env.chatResult (env.runExpr st.strategy)
        (dgetD "autoReset" (.bool true) fields)).reply = r) ∧
    (∀ e, env.runExpr st.strategy = .error e →
      (mergeChatWithReply env.chatResult (env.runExpr st.strategy)
          (dgetD "autoReset" (.bool true) fields)).expression = .str "" ∧
      (mergeChatWithReply env.chatResult (env.runExpr st.strategy)
          (dgetD "autoReset" (.bool true) fields)).parameters = .obj [] ∧
      (mergeChatWithReply env.chatResult (env.runExpr st.strategy)
          (dgetD "autoReset" (.bool true) fields)).duration = .num 800) ∧
    (∀ d, env.runExpr st.strategy = .ok d →
      (mergeChatWithReply env.chatResult (env.runExpr st.strategy)
          (dgetD "autoReset" (.bool true) fields)).expression =
        dgetD "expression" (.str "") d ∧
      (mergeChatWithReply env.chatResult (env.runExpr st.strategy)
          (dgetD "autoReset" (.bool true) fields)).parameters =
        dgetD "parameters" (.obj []) d ∧
      (mergeChatWithReply env.chatResult (env.runExpr st.strategy)
          (dgetD "autoReset" (.bool true) fields)).duration =
        dgetD "duration" (.num 800) d) := by
  have hne : ∀ s, isType (dget? "type" fields) s = true → s = "chat_with_reply" := by
    intro s hs
    rcases hmt : dget? "type" fields with _ | tv
    · rw [hmt] at hs; cases hs
    · rw [hmt] at hty hs
      cases tv <;> simp [isType] at hs hty
      rw [← hs]
      exact hty
  have hfalse : ∀ s, s ≠ "chat_with_reply" →
      isType (dget? "type" fields) s = false := by
    intro s hs
    cases hv : isType (dget? "type" fields) s
    · rfl
    · exact absurd (hne _ hv) hs
  refine ⟨?_, ?_, ?_, ?_, ?_⟩
  · have h1 := hfalse "load_model" (by decide)
    have h2 := hfalse "update_parameters" (by decide)
    have h3 := hfalse "chat" (by decide)
    simp only [dispatch, h1, h2, h3, hty, Bool.false_eq_true, if_false, if_true]
  · intro e he
    simp [mergeChatWithReply, he]
  · intro r hr
    simp [mergeChatWithReply, hr]
  · intro e he
    simp [mergeChatWithReply, he, dgetD, dget?]
  · intro d hd
    simp [mergeChatWithReply, hd]

theorem chat_with_reply_partial_failure_witness :
    (isType (dget? "type" [("type", JValue.str "chat_with_reply")])
        "chat_with_reply" = true) ∧
    ((dispatch ⟨[], .remoteGen, .obj [], none⟩
        ⟨fun _ => .error "expr down", .error "chat down", []⟩
        (.obj [("type", JValue.str "chat_with_reply")])).2 =
      [.reply (.chatResponseOut (mergeChatWithReply (.error "chat down")
        (.error "expr down") (.bool true)))]) ∧
    (mergeChatWithReply (.error "chat down") (.error "expr down")
        (.bool true)).reply = "聊天生成失败: chat down" ∧
    (mergeChatWithReply (.error "chat down") (.error "expr down")
        (.bool true)).expression = .str "" := by
  have h := chat_with_reply_partial_failure ⟨[], .remoteGen, .obj [], none⟩
    ⟨fun _ => .error "expr down", .error "chat down", []⟩
    [("type", JValue.str "chat_with_reply")] (by decide)
  refine ⟨by decide, h.1, h.2.1 "chat down" rfl, (h.2.2.2.1 "expr down" rfl).1⟩

end DispatcherTheorems

section JsonParser

/-- The open-brace character. -/
def lbrace : Char := Char.ofNat 123

/-- The close-brace character. -/
def rbrace : Char := Char.ofNat 125

/-- The double-quote character. -/
def quoteChar : Char := Char.ofNat 34

/-- The backslash character. -/
def backslashChar : Char := Char.ofNat 92

/-- Skip JSON whitespace. -/
def skipWs : List Char → List Char
  | [] => []
  | c :: cs =>
    if c = ' ' ∨ c = Char.ofNat 9 ∨ c = Char.ofNat 10 ∨ c = Char.ofNat 13 then
      skipWs cs
    else c :: cs

/-- JSON string literal body (after the opening quote): returns the
decoded string and the input after the closing quote. The `\\uXXXX` escape
is not modelled (treated as undecodable); unescaped control characters
are rejected as in Python\'s strict `json.loads`. -/
def parseStringLit : List Char → Option (String × List Char)
  | [] => none
  | c :: cs =>
    if c = quoteChar then some ("", cs)
    else if c = backslashChar then
      match cs with
      | [] => none
      | e :: cs' =>
        let r? : Option Char :=
          if e = quoteChar then some quoteChar
          else if e = backslashChar then some backslashChar
          else if e = '/' then some '/'
          else if e = 'b' then some (Char.ofNat 8)
          else if e = 'f' then some (Char.ofNat 12)
          else if e = 'n' then some (Char.ofNat 10)
          else if e = 'r' then some (Char.ofNat 13)
          else if e = 't' then some (Char.ofNat 9)
          else none
        match r? with
        | none => none
        | some ch =>
          match parseStringLit cs' with
          | some (t, rest) => some (String.mk (ch :: t.toList), rest)
          | none => none
    else if c.toNat < 32 then none
    else
      match parseStringLit cs with
      | some (t, rest) => some (String.mk (c :: t.toList), rest)
      | none => none

/-- Longest digit prefix. -/
def takeDigits : List Char → List Char × List Char
  | [] => ([], [])
  | c :: cs =>
    if c.isDigit then
      let r := takeDigits cs
      (c :: r.1, r.2)
    else ([], c :: cs)

/-- Digit run to a natural number. -/
def digitsToNat (ds : List Char) : Nat :=
  ds.foldl (fun n d => n * 10 + (d.toNat - 48)) 0

/-- A JSON number (sign, integer part without leading zeros, optional
fraction, optional exponent), as an exact rational. -/
def parseNumber (cs0 : List Char) : Option (ℚ × List Char) :=
  let sign :=
    match cs0 with
    | c :: rest => if c = '-' then (true, rest) else (false, cs0)
    | [] => (false, cs0)
  match takeDigits sign.2 with
  | ([], _) => none
  | (ds, cs2) =>
    if 1 < ds.length ∧ ds.head? = some '0' then none
    else
      let base : ℚ := (digitsToNat ds : ℚ)
      let withFrac : Option (ℚ × List Char) :=
        match cs2 with
        | c :: rest =>
          if c = '.' then
            match takeDigits rest with
            | ([], _) => none
            | (fs, cs3) =>
              some (base + (digitsToNat fs : ℚ) / ((10 : ℚ) ^ fs.length), cs3)
          else some (base, cs2)
        | [] => some (base, cs2)
      match withFrac with
      | none => none
      | some (m, cs3) =>
        let withExp : Option (ℚ × List Char) :=
          match cs3 with
          | c :: rest =>
            if c = 'e' ∨ c = 'E' then
              let esign :=
                match rest with
                | d :: rest' =>
                  if d = '-' then (true, rest')
                  else if d = '+' then (false, rest')
                  else (false, rest)
                | [] => (false, rest)
              match takeDigits esign.2 with
              | ([], _) => none
              | (es, cs5) =>
                let e := digitsToNat es
                some (if esign.1 then m / ((10 : ℚ) ^ e) else m * ((10 : ℚ) ^ e), cs5)
            else some (m, cs3)
          | [] => some (m, cs3)
        match withExp with
        | none => none
        | some (r, cs4) => some (if sign.1 then -r else r, cs4)

/-- Literal keyword match. -/
def matchLit : List Char → List Char → Option (List Char)
  | [], cs => some cs
  | _ :: _, [] => none
  | l :: ls, c :: cs => if c = l then matchLit ls cs else none

mutual

/-- One JSON value, fuel-bounded; expects its first character to be
non-whitespace. Objects are built by successive dict assignment, so
duplicate keys collapse with the last value winning, as in Python. -/
def parseValue : Nat → List Char → Option (JValue × List Char)
  | 0, _ => none
  | Nat.succ f, cs =>
    match cs with
    | [] => none
    | c :: rest =>
      if c = lbrace then
        (match skipWs rest with
        | d :: rest' =>
          if d = rbrace then some (.obj [], rest')
          else
            (match parseMembers f (d :: rest') with
            | some (ms, cs') =>
              some (.obj (ms.foldl (fun acc kv => dinsert kv.1 kv.2 acc) []), cs')
            | none => none)
        | [] => none)
      else if c = '[' then
        (match skipWs rest with
        | d :: rest' =>
          if d = ']' then some (.arr [], rest')
          else
            (match parseElems f (d :: rest') with
            | some (xs, cs') => some (.arr xs, cs')
            | none => none)
        | [] => none)
      else if c = quoteChar then
        (match parseStringLit rest with
        | some (t, cs') => some (.str t, cs')
        | none => none)
      else if c = '-' ∨ c.isDigit then
        (match parseNumber cs with
        | some (q, cs') => some (.num q, cs')
        | none => none)
      else
        (match matchLit ['n', 'u', 'l', 'l'] cs with
        | some cs' => some (.null, cs')
        | none =>
          (match matchLit ['t', 'r', 'u', 'e'] cs with
          | some cs' => some (.bool true, cs')
          | none =>
            (match matchLit ['f', 'a', 'l', 's', 'e'] cs with
            | some cs' => some (.bool false, cs')
            | none => none)))

/-- Comma-separated array elements up to the closing bracket. -/
def parseElems : Nat → List Char → Option (List JValue × List Char)
  | 0, _ => none
  | Nat.succ f, cs =>
    match parseValue f (skipWs cs) with
    | none => none
    | some (v, cs') =>
      (match skipWs cs' with
      | c :: rest =>
        if c = ',' then
          (match parseElems f rest with
          | some (xs, cs'') => some (v :: xs, cs'')
          | none => none)
        else if c = ']' then some ([v], rest)
        else none
      | [] => none)

/-- Comma-separated object members up to the closing brace. -/
def parseMembers : Nat → List Char → Option (List (String × JValue) × List Char)
  | 0, _ => none
  | Nat.succ f, cs =>
    match skipWs cs with
    | c :: rest =>
      if c = quoteChar then
        (match parseStringLit rest with
        | some (k, cs') =>
          (match skipWs cs' with
          | d :: rest' =>
            if d = ':' then
              (match parseValue f (skipWs rest') with
              | some (v, cs'') =>
                (match skipWs cs'' with
                | e :: rest'' =>
                  if e = ',' then
                    (match parseMembers f rest'' with
                    | some (ms, cs3) => some ((k, v) :: ms, cs3)
                    | none => none)
                  else if e = rbrace then some ([(k, v)], rest'')
                  else none
                | [] => none)
              | none => none)
            else none
          | [] => none)
        | none => none)
      else none
    | [] => none

end

/-- `json.loads`: decode one JSON document; anything but whitespace after
it is an error (Python raises `JSONDecodeError: Extra data`). -/
def parseJson (s : String) : Option JValue :=
  let cs := s.toList
  match parseValue (2 * cs.length + 2) (skipWs cs) with
  | some (v, rest) => if skipWs rest = [] then some v else none
  | none => none

end JsonParser

section RemotePipeline

/-- Index of the first open brace. -/
def firstBraceIdx : List Char → Option Nat
  | [] => none
  | c :: cs =>
    if c = lbrace then some 0
    else (firstBraceIdx cs).map (· + 1)

/-- Index of the last close brace. -/
def lastBraceIdx : List Char → Option Nat
  | [] => none
  | c :: cs =>
    match lastBraceIdx cs with
    | some j => some (j + 1)
    | none => if c = rbrace then some 0 else none

/-- The JSON-extraction regex of `expression.py` line 104,
`re.search` with pattern open-brace `[\\s\\S]*` close-brace: the
leftmost-longest match runs from the FIRST open brace to the LAST close
brace of the whole text; a match exists exactly when the first open
brace precedes the last close brace. -/
def extractBrace (s : String) : Option String :=
  let cs := s.toList
  match firstBraceIdx cs, lastBraceIdx cs with
  | some i, some j =>
    if i < j then some (String.mk ((cs.drop i).take (j - i + 1))) else none
  | _, _ => none

/-- Balanced-brace scan: consume until the depth returns to zero at a
close brace. -/
def balancedTake (depth : Nat) (acc : List Char) : List Char → Option (List Char)
  | [] => none
  | c :: cs =>
    if c = lbrace then balancedTake (depth + 1) (c :: acc) cs
    else if c = rbrace then
      (if depth = 1 then some (c :: acc).reverse
       else balancedTake (depth - 1) (c :: acc) cs)
    else balancedTake depth (c :: acc) cs

/-- Modelled from the spec (§4.3): "extract the first balanced `\x7b...\x7d`
block" from the surrounding text — cut at the close brace matching the
first open brace. Stated only for comparison with the source\'s
`extractBrace`. -/
def specFirstBalancedBlock (s : String) : Option String :=
  let cs := s.toList
  match firstBraceIdx cs with
  | none => none
  | some i => (balancedTake 0 [] (cs.drop i)).map String.mk

/-- The failure modes of `ExpressionGenerator.generate`: missing API key
(`ValueError`), empty schema (`ValueError`), non-success HTTP status
(`Exception`), regex finding no JSON object (`ValueError`), `json.loads`
failing (`JSONDecodeError`), a non-dict `parameters` field
(`AttributeError` at `.items()`), and a non-numeric parameter value
(`TypeError` inside `max`/`min`). -/
inductive RemoteError where
  | configError : RemoteError
  | paramsNotLoaded : RemoteError
  | httpError (status : Nat) : RemoteError
  | noJsonFound : RemoteError
  | decodeError : RemoteError
  | attrErrParams : RemoteError
  | typeErr : RemoteError
deriving Repr, DecidableEq

/-- Bool test for a failed `Except`. -/
def isErrB {ε α : Type} : Except ε α → Bool
  | .error _ => true
  | .ok _ => false

/-- JSON values Python\'s `max`/`min` can compare with numbers: numbers,
and bools (ints in Python, `True == 1`, `False == 0`); anything else
raises `TypeError`. -/
def jsonNumeric? : JValue → Option ℚ
  | .num q => some q
  | .bool b => some (if b then 1 else 0)
  | _ => none

/-- The validation loop of `ExpressionGenerator.generate` (lines
111–119) as executed on the decoded `result.get("parameters", \x7b\x7d)`,
whose values are arbitrary JSON: keys absent from the schema are skipped
without inspecting the value; for schema keys a non-numeric value raises
`TypeError`, and numeric values are clamped. -/
def validateJsonParamsRemote (schema : Schema) :
    List (String × JValue) → Except RemoteError (List (String × ℚ))
  | [] => .ok []
  | (k, v) :: rest =>
    match dget? k schema with
    | none => validateJsonParamsRemote schema rest
    | some info =>
      (match jsonNumeric? v with
      | none => .error .typeErr
      | some q =>
        (match validateJsonParamsRemote schema rest with
        | .ok acc => .ok ((k, clampValue info q) :: acc)
        | .error e => .error e))

/-- The parameters-processing step of the remote generator: read
`result.get("parameters", \x7b\x7d)`, iterate its items, validate. -/
def paramsStep (schema : Schema) (fields : List (String × JValue)) :
    Except RemoteError (List (String × ℚ)) :=
  match dgetD "parameters" (.obj []) fields with
  | .obj ps => validateJsonParamsRemote schema ps
  | _ => .error .attrErrParams

/-- `ExpressionGenerator.generate` (`expression.py` lines 59–121), with
the HTTP exchange modelled by its response status and the returned
message content string (the code reads
`data["choices"][0]["message"]["content"]`; envelope extraction is taken
as given). Exactly one request is issued per call — the function
consumes a single response and never retries. -/
def remoteGenerate (apiKeyOk : Bool) (schema : Schema) (status : Nat)
    (content : String) : Except RemoteError (List (String × JValue)) :=
  if ¬ apiKeyOk then .error .configError
  else if schema.isEmpty then .error .paramsNotLoaded
  else if status ≠ 200 then .error (.httpError status)
  else
    (match extractBrace content with
    | none => .error .noJsonFound
    | some t =>
      (match parseJson t with
      | none => .error .decodeError
      | some (.obj fields) =>
        (match paramsStep schema fields with
        | .error e => .error e
        | .ok validated =>
          .ok (dinsert "parameters"
            (.obj (validated.map (fun kv => (kv.1, JValue.num kv.2)))) fields))
      | some _ => .error .decodeError))

end RemotePipeline

section RemoteTheorems

theorem firstBraceIdx_drop {cs : List Char} {i : Nat}
    (h : firstBraceIdx cs = some i) : ∃ rest, cs.drop i = lbrace :: rest := by
  induction cs generalizing i with
  | nil => cases h
  | cons c cs ih =>
    rw [firstBraceIdx] at h
    by_cases hc : c = lbrace
    · rw [if_pos hc] at h
      obtain rfl := Option.some.inj h
      exact ⟨cs, by rw [List.drop_zero, hc]⟩
    · rw [if_neg hc] at h
      rcases hf : firstBraceIdx cs with _ | j <;> rw [hf] at h
      · cases h
      · simp only [Option.map_some'] at h
        obtain rfl := Option.some.inj h
        obtain ⟨rest, hr⟩ := ih hf
        exact ⟨rest, by simpa using hr⟩

theorem extractBrace_head {s t : String} (h : extractBrace s = some t) :
    ∃ rest, t.toList = lbrace :: rest := by
  rw [extractBrace] at h
  rcases hf : firstBraceIdx s.toList with _ | i <;>
    rcases hl : lastBraceIdx s.toList with _ | j <;>
      simp only [hf, hl] at h
  · cases h
  · cases h
  · cases h
  by_cases hij : i < j
  · rw [if_pos hij] at h
    obtain rfl := (Option.some.inj h).symm
    obtain ⟨rest, hr⟩ := firstBraceIdx_drop hf
    refine ⟨rest.take (j - i), ?_⟩
    show ((s.toList.drop i).take (j - i + 1)) = _
    rw [hr, List.take_succ_cons]
  · rw [if_neg hij] at h
    cases h

theorem parseValue_lbrace {f : Nat} {cs rest : List Char} {v : JValue}
    (h : parseValue (f + 1) (lbrace :: cs) = some (v, rest)) :
    ∃ fs, v = .obj fs := by
  rw [parseValue] at h
  simp only [eq_self_iff_true, if_true] at h
  rcases hw : skipWs cs with _ | ⟨d, rest'⟩ <;> simp only [hw] at h
  · cases h
  · by_cases hd : d = rbrace
    · rw [if_pos hd] at h
      injection h with h'
      injection h' with h1 h2
      exact ⟨[], h1.symm⟩
    · rw [if_neg hd] at h
      rcases hm : parseMembers f (d :: rest') with _ | ⟨ms, cs'⟩ <;>
        simp only [hm] at h
      · cases h
      · injection h with h'
        injection h' with h1 h2
        exact ⟨_, h1.symm⟩

theorem parseJson_obj_of_head {t : String} {v : JValue} {rest : List Char}
    (ht : t.toList = lbrace :: rest) (h : parseJson t = some v) :
    ∃ fs, v = .obj fs := by
  rw [parseJson] at h
  simp only [ht] at h
  have hsk : skipWs (lbrace :: rest) = lbrace :: rest := by
    rw [skipWs, if_neg (by decide)]
  rw [hsk] at h
  have hfuel : 2 * (lbrace :: rest).length + 2 = (2 * rest.length + 3) + 1 := by
    simp [List.length_cons]
    omega
  rw [hfuel] at h
  rcases hpv : parseValue (2 * rest.length + 3 + 1) (lbrace :: rest)
      with _ | ⟨v', r⟩ <;> simp only [hpv] at h
  · cases h
  · by_cases hre : skipWs r = []
    · rw [if_pos hre] at h
      obtain rfl := Option.some.inj h
      exact parseValue_lbrace hpv
    · rw [if_neg hre] at h
      cases h

/-- `C4` (amended): given a configured API key and a non-empty schema,
the remote strategy consumes exactly one response per call (no retry)
and extracts the GREEDY first-open-brace-to-last-close-brace span (not
the first balanced block) from the returned text; it fails exactly when
the status is not 200, when no such span exists, when the span cannot be
decoded, or when the decoded object\'s `parameters` entry is unusable (a
non-dict value, or a non-numeric value under a schema key). -/
theorem remote_generate_failure_cases (schema : Schema) (status : Nat)
    (content : String) (hs : schema.isEmpty = false) :
    isErrB (remoteGenerate true schema status content) = true ↔
      (status ≠ 200 ∨
        extractBrace content = none ∨
        (∃ t, extractBrace content = some t ∧ parseJson t = none) ∨
        (∃ t fields, extractBrace content = some t ∧
          parseJson t = some (.obj fields) ∧
          isErrB (paramsStep schema fields) = true)) := by
  rw [remoteGenerate, if_neg (by simp), if_neg (by simp [hs])]
  by_cases hst : status = 200
  · rw [if_neg (by simp [hst])]
    rcases hex : extractBrace content with _ | t
    · simp [hex, isErrB]
    · rcases hp : parseJson t with _ | v
      · simp only [hex, hp, isErrB, eq_self_iff_true, true_iff]
        exact Or.inr (Or.inr (Or.inl ⟨t, rfl, hp⟩))
      · obtain ⟨rest, ht⟩ := extractBrace_head hex
        obtain ⟨fields, rfl⟩ := parseJson_obj_of_head ht hp
        rcases hps : paramsStep schema fields with e | val
        · simp only [hex, hp, hps, isErrB, eq_self_iff_true, true_iff]
          exact Or.inr (Or.inr (Or.inr ⟨t, fields, rfl, hp, by rw [hps]⟩))
        · simp only [hex, hp, hps, isErrB, Bool.false_eq_true, false_iff]
          push_neg
          refine ⟨hst, by simp, ?_, ?_⟩
          · intro t' ht'
            obtain rfl := Option.some.inj ht'
            rw [hp]
            simp
          · intro t' fields' ht' hp'
            obtain rfl := Option.some.inj ht'
            rw [hp] at hp'
            obtain rfl := JValue.obj.inj (Option.some.inj hp')
            rw [hps]
            simp [isErrB]
  · rw [if_pos (by simp [hst])]
    simp [isErrB, hst]

/-- `C4` counterexample (to the claim as stated): on response text
`\x7b"a": 1\x7d\x7d` (status 200), the first balanced block `\x7b"a": 1\x7d`
exists and decodes fine, so the claimed extraction predicts success —
but the code\'s greedy regex takes the span up to the LAST close brace,
which fails to decode, so `generate` raises a decode error. -/
theorem remote_extraction_counterexample :
    specFirstBalancedBlock "\x7b\x22a\x22: 1\x7d\x7d" = some "\x7b\x22a\x22: 1\x7d" ∧
    parseJson "\x7b\x22a\x22: 1\x7d" = some (.obj [("a", .num 1)]) ∧
    extractBrace "\x7b\x22a\x22: 1\x7d\x7d" = some "\x7b\x22a\x22: 1\x7d\x7d" ∧
    parseJson "\x7b\x22a\x22: 1\x7d\x7d" = none ∧
    remoteGenerate true [("p", ⟨some 0, some 1, none⟩)] 200 "\x7b\x22a\x22: 1\x7d\x7d"
      = .error .decodeError :=
  ⟨rfl, rfl, rfl, rfl, rfl⟩

theorem remote_generate_failure_cases_witness :
    ([("p", (⟨some 0, some 1, none⟩ : ParamInfo))].isEmpty = false) ∧
    (isErrB (remoteGenerate true [("p", ⟨some 0, some 1, none⟩)] 500 "\x7b\x7d") = true ↔
      ((500 : Nat) ≠ 200 ∨
        extractBrace "\x7b\x7d" = none ∨
        (∃ t, extractBrace "\x7b\x7d" = some t ∧ parseJson t = none) ∨
        (∃ t fields, extractBrace "\x7b\x7d" = some t ∧
          parseJson t = some (.obj fields) ∧
          isErrB (paramsStep [("p", ⟨some 0, some 1, none⟩)] fields) = true))) :=
  ⟨rfl, remote_generate_failure_cases [("p", ⟨some 0, some 1, none⟩)] 500 "\x7b\x7d" rfl⟩

end RemoteTheorems

section FrameTheorems

theorem dget?_dinsert_ne {α : Type} (k k' : String) (v : α)
    (d : List (String × α)) (h : k ≠ k') :
    dget? k (dinsert k' v d) = dget? k d := by
  induction d with
  | nil => simp [dinsert, dget?, Ne.symm h]
  | cons p rest ih =>
    obtain ⟨a, b⟩ := p
    rw [dinsert]
    by_cases ha : a = k'
    · rw [if_pos ha]
      simp [dget?, Ne.symm h, ha]
    · rw [if_neg ha]
      simp [dget?, ih]

/-- `C10`: the remote generator\'s validation rewrites only the
`parameters` entry of the object decoded from the backend response:
every other key of that object (`expression`, `duration`, extra keys
included) is found unchanged in the dict `generate` returns. -/
theorem remote_rewrites_only_parameters (schema : Schema) (status : Nat)
    (content t : String) (fields out : List (String × JValue))
    (hex : extractBrace content = some t)
    (hp : parseJson t = some (.obj fields))
    (hok : remoteGenerate true schema status content = .ok out) :
    ∀ k : String, k ≠ "parameters" → dget? k out = dget? k fields := by
  intro k hk
  rw [remoteGenerate, if_neg (by simp)] at hok
  by_cases hse : schema.isEmpty = true
  · rw [if_pos hse] at hok
    cases hok
  · rw [if_neg hse] at hok
    by_cases hst : status ≠ 200
    · rw [if_pos hst] at hok
      cases hok
    · rw [if_neg hst] at hok
      simp only [hex, hp] at hok
      rcases hps : paramsStep schema fields with e | val <;>
        simp only [hps] at hok
      · cases hok
      · obtain rfl := (Except.ok.inj hok).symm
        exact dget?_dinsert_ne k "parameters" _ fields hk

end FrameTheorems

section LocalStrategy

/-- The lazy-initialization state of `LocalExpressionGenerator`: the
`_initialized` flag (the loaded model/tokenizer handles are opaque and
carry no further observable state). -/
structure LocalInitState where
  initialized : Bool
deriving Repr, DecidableEq

/-- Failure modes of the local generator: missing Python dependencies
(`RuntimeError`), a missing base-model or LoRA path
(`FileNotFoundError`), an empty schema (`ValueError`), and the
`AttributeError` of calling `.get`/`.items` on a non-dict decode. -/
inductive LocalError where
  | depsMissing : LocalError
  | baseNotFound : LocalError
  | loraNotFound : LocalError
  | paramsNotLoaded : LocalError
  | attrErr : LocalError
deriving Repr, DecidableEq

/-- `LocalExpressionGenerator._lazy_init` (`local_expression.py` lines
35–77): return immediately once initialized; otherwise check the
dependency flag and both artifact paths in order, raising on the first
failure — an exception leaves `_initialized` as `False` — and set
`_initialized = True` only after a successful load. -/
def lazyInit (st : LocalInitState) (env : LocalEnv) :
    Except LocalError LocalInitState :=
  if st.initialized then .ok st
  else if ¬ env.depsInstalled then .error .depsMissing
  else if ¬ env.basePathExists then .error .baseNotFound
  else if ¬ env.loraPathExists then .error .loraNotFound
  else .ok ⟨true⟩

/-- Does `kw` occur at the head of `cs`? -/
def subAt : List Char → List Char → Bool
  | [], _ => true
  | _ :: _, [] => false
  | k :: ks, c :: cs => k == c && subAt ks cs

/-- Does `kw` occur anywhere in `cs` (Python `kw in text`)? -/
def hasSub (kw : List Char) : List Char → Bool
  | [] => kw.isEmpty
  | c :: cs => subAt kw (c :: cs) || hasSub kw cs

/-- Python `kw in s` substring containment. -/
def containsSub (s kw : String) : Bool := hasSub kw.toList s.toList

/-- The keyword table of `_extract_emotion` (`local_expression.py` lines
114–140), in insertion order. -/
def emotionKeywords : List (String × String × ℚ) :=
  [("开心", "happy", 8/10), ("高兴", "happy", 7/10), ("快乐", "happy", 8/10),
   ("哈哈", "happy", 9/10), ("悲伤", "sad", 7/10), ("难过", "sad", 6/10),
   ("伤心", "sad", 8/10), ("哭", "sad", 9/10), ("生气", "angry", 8/10),
   ("愤怒", "angry", 9/10), ("烦", "annoyed", 6/10), ("惊讶", "surprised", 8/10),
   ("吃惊", "surprised", 7/10), ("害羞", "shy", 7/10),
   ("不好意思", "shy", 5/10), ("脸红", "shy", 8/10), ("思考", "thinking", 6/10),
   ("嗯", "thinking", 5/10), ("困", "sleepy", 7/10), ("累", "sleepy", 6/10),
   ("兴奋", "excited", 8/10), ("担心", "worried", 6/10),
   ("紧张", "worried", 7/10), ("困惑", "confused", 6/10),
   ("疑惑", "confused", 5/10)]

/-- Python `text.lower()`, as a per-character map. -/
def pyLower (s : String) : String := String.mk (s.toList.map Char.toLower)

/-- `_extract_emotion` (lines 111–148): first keyword contained in the
lowercased text wins; default `("neutral", 0.5)`. -/
def extractEmotion (text : String) : String × ℚ :=
  let lower := pyLower text
  match emotionKeywords.find? (fun e => containsSub lower e.1) with
  | some e => e.2
  | none => ("neutral", 5/10)

/-- Python `float(value)` on a decoded JSON value: numbers pass through,
bools are 1/0, numeric strings are converted (modelled for JSON-style
decimal forms), anything else raises and is skipped by the local
validation loop. -/
def pyFloat? : JValue → Option ℚ
  | .num q => some q
  | .bool b => some (if b then 1 else 0)
  | .str s =>
    (match parseNumber (skipWs s.toList) with
    | some (q, rest) => if skipWs rest = [] then some q else none
    | none => none)
  | _ => none

/-- The validation loop of `LocalExpressionGenerator.generate` (lines
210–219) on decoded JSON parameter values: schema lookup, `float`
conversion (failures skipped via `continue`), clamp, round to 3
decimals. -/
def validateJsonParamsLocal (schema : Schema) (ps : List (String × JValue)) :
    List (String × ℚ) :=
  ps.filterMap fun kv =>
    (match dget? kv.1 schema with
    | none => none
    | some info =>
      (match pyFloat? kv.2 with
      | none => none
      | some q => some (kv.1, round3 (clampValue info q))))

/-- `LocalExpressionGenerator.generate` (`local_expression.py` lines
150–225), with the model\'s decoded output text supplied by the
environment (`generatedText`). Pipeline: `_lazy_init`, schema check,
emotion extraction, then the JSON-parse fallback chain — `json.loads` on
the whole text, else on the greedy brace span, else the default dict —
then validation and the three field updates. Returns the result (or
error) together with the initialization state after the call. -/
def localGenerate (st : LocalInitState) (env : LocalEnv) (schema : Schema)
    (text generatedText : String) :
    Except LocalError (List (String × JValue)) × LocalInitState :=
  match lazyInit st env with
  | .error e => (.error e, st)
  | .ok st' =>
    if schema.isEmpty then (.error .paramsNotLoaded, st')
    else
      let em := extractEmotion text
      let dfltDict : List (String × JValue) :=
        [("expression", .str em.1), ("parameters", .obj []), ("duration", .num 600)]
      let result? : Except LocalError (List (String × JValue)) :=
        match parseJson generatedText with
        | some (.obj fs) => .ok fs
        | some _ => .error .attrErr
        | none =>
          (match extractBrace generatedText with
          | some t =>
            (match parseJson t with
            | some (.obj fs) => .ok fs
            | some _ => .error .attrErr
            | none => .ok dfltDict)
          | none => .ok dfltDict)
      match result? with
      | .error e => (.error e, st')
      | .ok result =>
        (match dgetD "parameters" (.obj []) result with
        | .obj ps =>
          let validated := validateJsonParamsLocal schema ps
          let r1 := dinsert "parameters"
            (.obj (validated.map (fun kv => (kv.1, JValue.num kv.2)))) result
          let r2 := dinsert "expression" (dgetD "expression" (.str em.1) r1) r1
          let r3 := dinsert "duration" (dgetD "duration" (.num 600) r2) r2
          (.ok r3, st')
        | _ => (.error .attrErr, st'))

end LocalStrategy

section LocalTheorems

/-- `C7` (amended): acquisition is lazy and at-most-once on success —
`generate` triggers `_lazy_init`; once initialized, a call returns
immediately without reloading; a successful load sets the flag; a failed
acquisition raises and leaves the flag unset, so the NEXT `generate`
call re-attempts the load (and succeeds if the artifacts have appeared):
the failure is per-call, not permanent for the process. -/
theorem local_lazy_acquisition (st : LocalInitState) (env env' : LocalEnv)
    (schema : Schema) (text gt : String) :
    (st.initialized = true → lazyInit st env = .ok st) ∧
    (∀ st', lazyInit st env = .ok st' → st'.initialized = true) ∧
    (∀ e, lazyInit st env = .error e →
      (localGenerate st env schema text gt).2 = st) ∧
    (st.initialized = false → isAvailable env' = true →
      lazyInit st env' = .ok ⟨true⟩) := by
  refine ⟨?_, ?_, ?_, ?_⟩
  · intro h
    rw [lazyInit, if_pos h]
  · intro st' h
    rw [lazyInit] at h
    split_ifs at h with h1 h2 h3 h4 <;>
      first
      | exact Except.noConfusion h
      | (obtain rfl := Except.ok.inj h; exact h1)
      | (obtain rfl := (Except.ok.inj h).symm; rfl)
  · intro e h
    rw [localGenerate]
    simp only [h]
  · intro h ha
    have ha' := ha
    rw [isAvailable, Bool.and_eq_true, Bool.and_eq_true] at ha'
    obtain ⟨⟨hd, hb⟩, hl⟩ := ha'
    rw [lazyInit, if_neg (by simp [h]), if_neg (by simp [hd]),
      if_neg (by simp [hb]), if_neg (by simp [hl])]

/-- `C7` counterexample (to the claim as stated): the first `generate`
call with the base-model path missing fails and leaves `_initialized`
unset; a second call with the artifacts now present re-attempts the load
and succeeds — so a missing-artifact failure is NOT permanent for the
process and later calls DO retry the load. -/
theorem local_lazy_retry_counterexample :
    (localGenerate ⟨false⟩ ⟨true, false, true⟩ [("p", ⟨some 0, some 1, none⟩)]
        "你好" "x").1 = .error .baseNotFound ∧
    (localGenerate ⟨false⟩ ⟨true, false, true⟩ [("p", ⟨some 0, some 1, none⟩)]
        "你好" "x").2 = ⟨false⟩ ∧
    (localGenerate ⟨false⟩ ⟨true, true, true⟩ [("p", ⟨some 0, some 1, none⟩)]
        "你好" "x").1 =
      .ok [("expression", .str "neutral"), ("parameters", .obj []),
        ("duration", .num 600)] ∧
    (localGenerate ⟨false⟩ ⟨true, true, true⟩ [("p", ⟨some 0, some 1, none⟩)]
        "你好" "x").2 = ⟨true⟩ :=
  ⟨rfl, rfl, rfl, rfl⟩

theorem local_lazy_acquisition_witness :
    ((⟨false⟩ : LocalInitState).initialized = false ∧
      isAvailable ⟨true, true, true⟩ = true) ∧
    lazyInit ⟨false⟩ ⟨true, true, true⟩ = .ok ⟨true⟩ :=
  ⟨⟨rfl, rfl⟩,
    (local_lazy_acquisition ⟨false⟩ ⟨true, false, true⟩ ⟨true, true, true⟩
      [] "" "").2.2.2 rfl rfl⟩

theorem remote_rewrites_only_parameters_witness :
    (extractBrace
        "x\x7b\x22expression\x22: \x22smile\x22, \x22parameters\x22: \x7b\x22p\x22: 2, \x22q\x22: 3\x7d, \x22duration\x22: 500, \x22extra\x22: true\x7d" =
      some
        "\x7b\x22expression\x22: \x22smile\x22, \x22parameters\x22: \x7b\x22p\x22: 2, \x22q\x22: 3\x7d, \x22duration\x22: 500, \x22extra\x22: true\x7d") ∧
    (remoteGenerate true [("p", ⟨some 0, some 1, none⟩)] 200
        "x\x7b\x22expression\x22: \x22smile\x22, \x22parameters\x22: \x7b\x22p\x22: 2, \x22q\x22: 3\x7d, \x22duration\x22: 500, \x22extra\x22: true\x7d" =
      .ok [("expression", .str "smile"), ("parameters", .obj [("p", .num 1)]),
        ("duration", .num 500), ("extra", .bool true)]) ∧
    (∀ k : String, k ≠ "parameters" →
      dget? k [("expression", JValue.str "smile"),
        ("parameters", .obj [("p", .num 1)]),
        ("duration", .num 500), ("extra", .bool true)] =
      dget? k [("expression", JValue.str "smile"),
        ("parameters", .obj [("p", .num 2), ("q", .num 3)]),
        ("duration", .num 500), ("extra", .bool true)]) :=
  ⟨rfl, rfl,
    remote_rewrites_only_parameters [("p", ⟨some 0, some 1, none⟩)] 200
      "x\x7b\x22expression\x22: \x22smile\x22, \x22parameters\x22: \x7b\x22p\x22: 2, \x22q\x22: 3\x7d, \x22duration\x22: 500, \x22extra\x22: true\x7d"
      "\x7b\x22expression\x22: \x22smile\x22, \x22parameters\x22: \x7b\x22p\x22: 2, \x22q\x22: 3\x7d, \x22duration\x22: 500, \x22extra\x22: true\x7d"
      [("expression", .str "smile"),
        ("parameters", .obj [("p", .num 2), ("q", .num 3)]),
        ("duration", .num 500), ("extra", .bool true)]
      [("expression", .str "smile"), ("parameters", .obj [("p", .num 1)]),
        ("duration", .num 500), ("extra", .bool true)]
      rfl rfl rfl⟩

end LocalTheorems

end SoulLink
